import Mathlib

/-!
Verification of `agent/session/plugins/shell/shell_unix.go` from the
amazon-ssm-agent repository.

The file shallowly embeds the Go source: Go strings are Lean `String`s,
Go `int` is `Int`, Go `uint32`/`uint16` casts are explicit `% 2^32` /
`% 2^16` reductions, external command executions (`exec.Command(...).Output()`)
are oracles supplied through a `CredWorld` / `StartWorld` record, and
runtime panics (out-of-range slice indexing) are modelled as an explicit
error constructor. Effects on the process-wide `ptyFile` global are modelled
by explicit state passing of a `PtyFileState`.
-/

namespace ShellUnix

/-! ### Go standard-library string primitives used by the source -/

/-- Go `unicode.IsSpace` restricted to the Latin-1 range, which is the set
relevant to `strings.TrimSpace` on command output: tab, newline, vertical
tab, form feed, carriage return, space, NEL, NBSP. -/
def goIsSpace (c : Char) : Bool :=
  c.toNat = 9 || c.toNat = 10 || c.toNat = 11 || c.toNat = 12 ||
  c.toNat = 13 || c.toNat = 32 || c.toNat = 133 || c.toNat = 160

/-- Go `strings.TrimSpace`: drop leading and trailing whitespace. -/
def goTrimSpace (s : String) : String :=
  (((s.toList.dropWhile goIsSpace).reverse.dropWhile goIsSpace).reverse).asString

/-- Worker for Go `strings.Split` on a single-character separator:
walks the character list accumulating the current field (reversed). -/
def splitCharAux (sep : Char) : List Char → List Char → List (List Char)
  | [], acc => [acc.reverse]
  | c :: cs, acc =>
    if c = sep then acc.reverse :: splitCharAux sep cs []
    else splitCharAux sep cs (c :: acc)

/-- Go `strings.Split(s, sep)` for a one-character `sep`: splits at every
occurrence, keeping empty fields. -/
def goSplit (s : String) (sep : Char) : List String :=
  (splitCharAux sep s.toList []).map List.asString

/-- Number of occurrences of a character in a string. -/
def countChar (sep : Char) (s : String) : Nat :=
  s.toList.count sep

/-- Digit-string accumulator for Go `strconv.Atoi`: `none` on any
non-digit character. -/
def parseDigitsAux : List Char → Nat → Option Nat
  | [], acc => some acc
  | c :: cs, acc =>
    if c.isDigit then parseDigitsAux cs (acc * 10 + (c.toNat - 48)) else none

/-- Go `strconv.Atoi`: optional sign, then at least one digit, base 10,
rejecting anything outside the 64-bit `int` range. -/
def goAtoi (s : String) : Except Unit Int :=
  let cs := s.toList
  let signDigits : Bool × List Char :=
    match cs with
    | '-' :: rest => (true, rest)
    | '+' :: rest => (false, rest)
    | _ => (false, cs)
  let neg := signDigits.1
  let ds := signDigits.2
  if ds.isEmpty then .error ()
  else
    match parseDigitsAux ds 0 with
    | none => .error ()
    | some n =>
      let v : Int := if neg then -(n : Int) else (n : Int)
      if v < -(2 ^ 63) || (2 ^ 63 - 1 : Int) < v then .error () else .ok v

/-- Go conversion `uint32(n)` applied to an `int`: the low 32 bits. -/
def toUInt32Nat (n : Int) : Nat :=
  (n % (2 ^ 32 : Int)).toNat

/-- Go conversion `uint16(n)` applied to a `uint32` value: the low 16 bits. -/
def toUInt16Nat (n : Nat) : Nat :=
  n % 2 ^ 16

/-! ### Length of a Go split -/

theorem splitCharAux_length (sep : Char) (l acc : List Char) :
    (splitCharAux sep l acc).length = l.count sep + 1 := by
  induction l generalizing acc with
  | nil => simp [splitCharAux]
  | cons c cs ih =>
    by_cases h : c = sep
    · subst h
      simp [splitCharAux, List.count_cons, ih]
    · rw [List.count_cons]
      simp only [splitCharAux, if_neg h, ih]
      have hbc : (sep == c) = false := by
        simp [beq_iff_eq]
        exact fun hc => h hc.symm
      simp [hbc]
      exact h

theorem goSplit_length (s : String) (sep : Char) :
    (goSplit s sep).length = countChar sep s + 1 := by
  simp [goSplit, countChar, splitCharAux_length]

/-! ### Constants of `shell_unix.go` and its configuration collaborators -/

/-- Modelled from the spec: `appconfig.DefaultRunAsUserName`, the fixed,
well-known restricted username; the `appconfig` package is not under `src/`. -/
def defaultRunAsUserName : String := "ssm-user"

/-- Modelled from the spec: `utility.ShellPluginCommandArgs`, the configured
"run a single command line" flag list of the command-line shell; the
`utility` package is not under `src/`. -/
def shellPluginCommandArgs : List String := ["-c"]

/-- Modelled from the spec: `mgsConfig.ScreenBufferSize`, the configured
scroll/screen buffer size; the `mgsConfig` package is not under `src/`. -/
def mgsScreenBufferSize : Nat := 100000

/-- Modelled from the spec: `mgsConfig.Exit`, the exit command text; the
`mgsConfig` package is not under `src/`. -/
def mgsExit : String := "exit"

/-- Modelled from the spec: `appconfig.DefaultSessionLogger`, the internal
session-logger helper command; the `appconfig` package is not under `src/`. -/
def defaultSessionLogger : String := "ssm-session-logger"

def termEnvVariable : String := "TERM=xterm-256color"

def langEnvVariable : String := "LANG=C.UTF-8"

def startRecordSessionCmd : String := "script"

def newLineCharacter : String := "\n"

def homeEnvVariable : String := "HOME=/home/" ++ defaultRunAsUserName

/-! ### Error model

Go errors returned by the source, tagged by originating step; a Go runtime
panic (out-of-range indexing) is modelled explicitly as `panicFault`. -/

inductive GoError where
  /-- An external command (`exec.Cmd.Output`) failed, with its message. -/
  | queryError (msg : String)
  /-- `strconv.Atoi` failed to parse command output. -/
  | parseError
  /-- `errors.New("invalid uid and gid")` from the final validation. -/
  | invalidCred
  /-- `fmt.Errorf("Failed to start pty: ...")`. -/
  | ptyStartError
  /-- `fmt.Errorf("unable to close ptyFile. ...")`. -/
  | closeError
  /-- `fmt.Errorf("set pty size failed: ...")`. -/
  | resizeError
  /-- Go runtime panic, e.g. index out of range on a slice. -/
  | panicFault (msg : String)
  deriving DecidableEq, Repr

/-! ### CredentialResolver: `getUserCredentials` -/

/-- Oracle for the four kinds of external identity queries made by
`getUserCredentials`: outputs of `id -u`, `id -g`, `groups`, and
`getent group <name>`, each either stdout text or a failure message. -/
structure CredWorld where
  uidOut : Except String String
  gidOut : Except String String
  groupsOut : Except String String
  getentOut : String → Except String String

/-- External queries issued during credential resolution, in order. -/
inductive QEvent where
  | uidQuery
  | gidQuery
  | groupsQuery
  | getentQuery (name : String)
  deriving DecidableEq, Repr

/-- The per-group body of the loop in `getUserCredentials`:
`strconv.Atoi(strings.TrimSpace(strings.Split(string(out), ":")[2]))`
followed by the `uint32` conversion. The `[2]` index is unchecked in Go;
an output with fewer than three colon-separated fields panics, modelled
as `panicFault`. -/
def parseGroupId (out : String) : Except GoError Nat :=
  match (goSplit out ':').get? 2 with
  | none => .error (.panicFault "index out of range")
  | some field =>
    match goAtoi (goTrimSpace field) with
    | .error _ => .error .parseError
    | .ok n => .ok (toUInt32Nat n)

/-- The group-resolution loop of `getUserCredentials`: for each candidate
group name, run `getent group <name>`, parse the record's third field as
the numeric gid; any failure aborts the whole resolution. Returns the
result together with the `getent` queries actually issued. -/
def resolveGroups (w : CredWorld) : List String → Except GoError (List Nat) × List QEvent
  | [] => (.ok [], [])
  | name :: rest =>
    match w.getentOut name with
    | .error e => (.error (.queryError e), [.getentQuery name])
    | .ok out =>
      match parseGroupId out with
      | .error e => (.error e, [.getentQuery name])
      | .ok gidN =>
        let tail := resolveGroups w rest
        match tail.1 with
        | .error e => (.error e, .getentQuery name :: tail.2)
        | .ok gs => (.ok (gidN :: gs), .getentQuery name :: tail.2)

/-- `getUserCredentials`: resolve uid, gid and supplementary groups of the
runas user through external queries; the group-membership output is split
on spaces and the first two tokens are skipped; the combined result is
accepted only when `uid > 0 && gid > 0`, otherwise
`errors.New("invalid uid and gid")`. Returns the result together with the
external queries issued. -/
def getUserCredentials (w : CredWorld) :
    Except GoError (Nat × Nat × List Nat) × List QEvent :=
  match w.uidOut with
  | .error e => (.error (.queryError e), [.uidQuery])
  | .ok uidOut =>
    match goAtoi (goTrimSpace uidOut) with
    | .error _ => (.error .parseError, [.uidQuery])
    | .ok uid =>
      match w.gidOut with
      | .error e => (.error (.queryError e), [.uidQuery, .gidQuery])
      | .ok gidOut =>
        match goAtoi (goTrimSpace gidOut) with
        | .error _ => (.error .parseError, [.uidQuery, .gidQuery])
        | .ok gid =>
          match w.groupsOut with
          | .error e => (.error (.queryError e), [.uidQuery, .gidQuery, .groupsQuery])
          | .ok groupsOut =>
            let groupNames := goSplit groupsOut ' '
            let loop := resolveGroups w (groupNames.drop 2)
            let evs := [QEvent.uidQuery, .gidQuery, .groupsQuery] ++ loop.2
            match loop.1 with
            | .error e => (.error e, evs)
            | .ok groupIds =>
              if uid > 0 && gid > 0 then
                (.ok (toUInt32Nat uid, toUInt32Nat gid, groupIds), evs)
              else
                (.error .invalidCred, evs)

/-! ### PtySessionManager: `StartPty`, `Stop`, `SetSize`

The process-wide `var ptyFile *os.File` global is modelled as an explicit
`PtyFileState` threaded through the operations. -/

/-- State of the global `ptyFile`: the nil pointer (before any successful
start), an open master handle, or a handle that has been closed. -/
inductive PtyFileState where
  | nilFile
  | openFile
  | closedFile
  deriving DecidableEq, Repr

/-- `syscall.Credential` as attached to `cmd.SysProcAttr.Credential`. -/
structure Credential where
  uid : Nat
  gid : Nat
  groups : List Nat
  noSetGroups : Bool
  deriving DecidableEq, Repr

/-- The subprocess-spawn attempt handed to `pty.Start`: program, argument
list, environment, and the optional credential descriptor. -/
structure SpawnInfo where
  prog : String
  args : List String
  env : List String
  cred : Option Credential
  deriving DecidableEq, Repr

/-- Oracle for `StartPty`: the caller's environment (`os.Environ()`), the
value of `os.Getenv("LANG")` (empty when unset), the identity-query
oracle, and whether `pty.Start` succeeds. -/
structure StartWorld where
  environ : List String
  langValue : String
  credWorld : CredWorld
  ptyStartOk : Bool

/-- Result of a `StartPty` call: the returned handles and error, the new
value of the global `ptyFile`, whether `CreateLocalAdminUser` ran, the
identity queries issued, and the spawn attempt (if `pty.Start` was
reached). -/
structure StartResult where
  stdin : Option Unit
  stdout : Option Unit
  err : Option GoError
  state : PtyFileState
  createdUser : Bool
  credQueries : List QEvent
  spawned : Option SpawnInfo
  deriving Repr

/-- Lines 53-59 of `shell_unix.go`: an empty (after trimming) `shellCmd`
yields `exec.Command("sh")`; otherwise `exec.Command("sh",
append(ShellPluginCommandArgs, shellCmd)...)`. -/
def buildCommand (shellCmd : String) : String × List String :=
  if goTrimSpace shellCmd = "" then ("sh", [])
  else ("sh", shellPluginCommandArgs ++ [shellCmd])

/-- Lines 63-73 of `shell_unix.go`: child environment is
`os.Environ()` plus the TERM and HOME overrides, plus `LANG=C.UTF-8`
exactly when `os.Getenv("LANG")` is empty. -/
def childEnv (environ : List String) (langValue : String) : List String :=
  let env := environ ++ [termEnvVariable, homeEnvVariable]
  if langValue = "" then env ++ [langEnvVariable] else env

/-- `StartPty(log, runAsSsmUser, shellCmd)`: build the command and its
environment; when `runAsSsmUser`, create the local admin user, resolve
credentials (propagating any resolver error before `pty.Start`), and
attach the resolved identity with `NoSetGroups: false`; then start the
command under a pty, returning the master handle as both stdin and
stdout. -/
def StartPty (w : StartWorld) (prev : PtyFileState) (runAsSsmUser : Bool)
    (shellCmd : String) : StartResult :=
  let pa := buildCommand shellCmd
  let env := childEnv w.environ w.langValue
  let startCmd : Option Credential → Bool → List QEvent → StartResult :=
    fun cred created qs =>
      let si : SpawnInfo := { prog := pa.1, args := pa.2, env := env, cred := cred }
      if w.ptyStartOk then
        { stdin := some (), stdout := some (), err := none, state := .openFile,
          createdUser := created, credQueries := qs, spawned := some si }
      else
        { stdin := none, stdout := none, err := some .ptyStartError, state := .nilFile,
          createdUser := created, credQueries := qs, spawned := some si }
  if runAsSsmUser then
    let res := getUserCredentials w.credWorld
    match res.1 with
    | .error e =>
      { stdin := none, stdout := none, err := some e, state := prev,
        createdUser := true, credQueries := res.2, spawned := none }
    | .ok (uid, gid, groups) =>
      startCmd (some { uid := uid, gid := gid, groups := groups, noSetGroups := false })
        true res.2
  else
    startCmd none false []

/-- Actions `Stop` may perform on the PTY handle or the child process. -/
inductive ProcEvent where
  | closeHandle
  | signalChild
  | waitChild
  deriving DecidableEq, Repr

/-- `Stop(log)`: `ptyFile.Close()`, wrapping any failure. Closing a nil
handle returns `os.ErrInvalid`; closing an already-closed handle returns
`os.ErrClosed`; in both cases `Stop` wraps it as
`"unable to close ptyFile. ..."`. The child is neither signalled nor
awaited. -/
def Stop (st : PtyFileState) : Option GoError × PtyFileState × List ProcEvent :=
  match st with
  | .openFile => (none, .closedFile, [.closeHandle])
  | .closedFile => (some .closeError, .closedFile, [.closeHandle])
  | .nilFile => (some .closeError, .nilFile, [.closeHandle])

/-- `SetSize(log, ws_col, ws_row)`: build `pty.Winsize` with
`uint16(ws_col)`/`uint16(ws_row)` and call `pty.Setsize(ptyFile, ...)`.
On a nil or closed handle the underlying ioctl fails (EBADF / invalid
argument) and the error is wrapped as `"set pty size failed: ..."`; on an
open handle the ioctl applies exactly the built `Winsize`, returned here
as the applied `(cols, rows)` pair. -/
def SetSize (st : PtyFileState) (wsCol wsRow : Nat) : Except GoError (Nat × Nat) :=
  let cols := toUInt16Nat wsCol
  let rows := toUInt16Nat wsRow
  match st with
  | .openFile => .ok (cols, rows)
  | .closedFile => .error .resizeError
  | .nilFile => .error .resizeError

/-! ### SessionRecorder: `generateLogData` -/

/-- The fields of `ShellPlugin` read by `generateLogData`; the struct
itself is declared in a sibling file not under `src/`, its fields are
taken from their uses at lines 216 and 222. -/
structure ShellPlugin where
  logFilePath : String
  ipcFilePath : String
  deriving DecidableEq, Repr

/-- Observable steps of the scripted recording sequence: a fixed sleep
(in seconds), a write of command text to the shadow shell's input, and
the close of the PTY input handle. -/
inductive REvent where
  | sleep (seconds : Nat)
  | write (text : String)
  | closeStdin
  deriving DecidableEq, Repr

/-- `fmt.Sprintf(screenBufferSizeCmd, mgsConfig.ScreenBufferSize,
newLineCharacter)` at line 210. -/
def screenBufferSizeCmdInput : String :=
  "screen -h " ++ toString mgsScreenBufferSize ++ newLineCharacter

/-- `fmt.Sprintf("%s %s%s", startRecordSessionCmd, p.logFilePath,
newLineCharacter)` at line 216. -/
def recordCmdInput (p : ShellPlugin) : String :=
  startRecordSessionCmd ++ " " ++ p.logFilePath ++ newLineCharacter

/-- `fmt.Sprintf("%s %s %t%s", appconfig.DefaultSessionLogger,
p.ipcFilePath, false, newLineCharacter)` at line 222. -/
def loggerCmdInput (p : ShellPlugin) : String :=
  defaultSessionLogger ++ " " ++ p.ipcFilePath ++ " " ++ "false" ++ newLineCharacter

/-- `fmt.Sprintf("%s%s", mgsConfig.Exit, newLineCharacter)` at line 228. -/
def exitCmdInput : String := mgsExit ++ newLineCharacter

/-- Result of `generateLogData`: its returned error, the final state of
the global `ptyFile`, the shadow session's start attempt, and the
scripted steps performed after a successful start. -/
structure LogDataResult where
  err : Option GoError
  state : PtyFileState
  start : StartResult
  script : List REvent
  deriving Repr

/-- `generateLogData`: start a disposable pty session (no privilege drop,
no command); on start failure return that error at once with no scripted
step performed; otherwise write the buffer-enlarge, record and logger
commands and three exit commands with the source's fixed sleeps between
them, close the PTY input, sleep once more, and return nil. Write return
values are discarded by the source, so writes cannot fail the sequence;
the recover barrier at lines 199-205 only fires on a runtime panic, which
this straight-line body never raises. -/
def generateLogData (p : ShellPlugin) (w : StartWorld) (prev : PtyFileState) :
    LogDataResult :=
  let r := StartPty w prev false ""
  match r.err with
  | some e => { err := some e, state := r.state, start := r, script := [] }
  | none =>
    { err := none, state := .closedFile, start := r,
      script :=
        [.sleep 5, .write screenBufferSizeCmdInput,
         .sleep 5, .write (recordCmdInput p),
         .sleep 5, .write (loggerCmdInput p),
         .sleep 60, .write exitCmdInput,
         .sleep 30, .write exitCmdInput,
         .sleep 5, .write exitCmdInput,
         .sleep 5, REvent.closeStdin,
         .sleep 15] }

/-! ### Claims -/

/-- Claim C7: for every columns, rows pair, calling `SetSize` before any
successful `Start` (global `ptyFile` still the nil pointer) returns a
resize error — it neither succeeds nor crashes. -/
theorem setSize_before_start_fails (wsCol wsRow : Nat) :
    SetSize PtyFileState.nilFile wsCol wsRow = .error .resizeError := by
  rfl

/-- Claim C8: `Stop` only closes the active PTY master handle — its action
trace is exactly one close, never a signal to or wait on the child — an
open handle is closed successfully, and `Stop` on an already-closed handle
returns a close error rather than succeeding silently. -/
theorem stop_close_semantics :
    (∀ st, (Stop st).2.2 = [ProcEvent.closeHandle]) ∧
    Stop PtyFileState.openFile = (none, .closedFile, [.closeHandle]) ∧
    (Stop PtyFileState.closedFile).1 = some .closeError := by
  refine ⟨fun st => ?_, rfl, rfl⟩
  cases st <;> rfl

/-- Claim C9 counterexample: with an active session, `SetSize 65536 24`
applies `(0, 24)` to the PTY device — the `uint16` conversion truncates
the given `uint32` columns value, so the applied size is not exactly the
given pair. -/
theorem setSize_not_exact_at_65536 :
    SetSize PtyFileState.openFile 65536 24 = .ok (0, 24) ∧ (0 : Nat) ≠ 65536 := by
  exact ⟨rfl, by decide⟩

/-- Claim C9 (amended): with an active session the applied window size is
the given pair reduced modulo 2^16 by the `uint16` conversion — hence
exactly the given `(columns, rows)` pair whenever both are below 65536 —
and no other bounds validation or modification is performed. -/
theorem setSize_applies_mod_65536 (wsCol wsRow : Nat) :
    SetSize PtyFileState.openFile wsCol wsRow = .ok (wsCol % 2 ^ 16, wsRow % 2 ^ 16) ∧
    (wsCol < 2 ^ 16 → wsRow < 2 ^ 16 →
      SetSize PtyFileState.openFile wsCol wsRow = .ok (wsCol, wsRow)) := by
  constructor
  · rfl
  · intro hc hr
    show Except.ok (toUInt16Nat wsCol, toUInt16Nat wsRow) = _
    rw [toUInt16Nat, toUInt16Nat, Nat.mod_eq_of_lt hc, Nat.mod_eq_of_lt hr]

/-- Claim C9 amended-theorem witness at a concrete in-range input. -/
theorem setSize_applies_mod_65536_witness :
    SetSize PtyFileState.openFile 80 24 = .ok (80, 24) :=
  (setSize_applies_mod_65536 80 24).2 (by decide) (by decide)

/-- Claim C10: the group-database record is split on ":" and its third
field read with no arity check; the index is in bounds exactly when the
record output contains at least two ":" separators, and on any output with
fewer the access is out of range (a runtime panic in Go). -/
theorem group_record_third_field_bounds (out : String) :
    (((goSplit out ':').get? 2).isSome ↔ 2 ≤ countChar ':' out) ∧
    (countChar ':' out < 2 →
      parseGroupId out = .error (.panicFault "index out of range")) := by
  have hlen := goSplit_length out ':'
  constructor
  · rw [Option.isSome_iff_ne_none, ne_eq, List.get?_eq_none, hlen]
    omega
  · intro hlt
    have hnone : (goSplit out ':').get? 2 = none := by
      rw [List.get?_eq_none, hlen]
      omega
    rw [parseGroupId, hnone]

/-- Claim C10 witness: a record with no colon at all makes the access out
of bounds and the extraction a runtime fault. -/
theorem group_record_third_field_bounds_witness :
    parseGroupId "nocolons" = .error (.panicFault "index out of range") :=
  (group_record_third_field_bounds "nocolons").2 (by decide)

/-- Claim C1: in a run of credential resolution where every external
query and parse succeeds, the credential is returned exactly when the
parsed uid and gid are both strictly positive; when either is zero or
negative, resolution returns the invalid-credential error and no
credential reaches the caller. -/
theorem credentials_returned_iff_positive
    (w : CredWorld) (us gs grs : String) (uid gid : Int)
    (ids : List Nat) (evs : List QEvent)
    (hu : w.uidOut = .ok us) (hup : goAtoi (goTrimSpace us) = .ok uid)
    (hg : w.gidOut = .ok gs) (hgp : goAtoi (goTrimSpace gs) = .ok gid)
    (hgr : w.groupsOut = .ok grs)
    (hloop : resolveGroups w ((goSplit grs ' ').drop 2) = (.ok ids, evs)) :
    ((0 < uid ∧ 0 < gid) →
      (getUserCredentials w).1 = .ok (toUInt32Nat uid, toUInt32Nat gid, ids)) ∧
    ((uid ≤ 0 ∨ gid ≤ 0) →
      (getUserCredentials w).1 = .error .invalidCred) := by
  have hred : getUserCredentials w =
      (if uid > 0 && gid > 0 then
        (.ok (toUInt32Nat uid, toUInt32Nat gid, ids),
          [QEvent.uidQuery, .gidQuery, .groupsQuery] ++ evs)
      else
        (.error .invalidCred,
          [QEvent.uidQuery, .gidQuery, .groupsQuery] ++ evs)) := by
    simp only [getUserCredentials, hu, hup, hg, hgp, hgr, hloop]
  constructor
  · intro hpos
    rw [hred, if_pos (by simp [decide_eq_true_eq]; omega)]
  · intro hnp
    rw [hred, if_neg (by simp [decide_eq_true_eq]; omega)]

/-- Concrete identity-query oracle where the restricted user's uid
resolves to 0 and everything else succeeds. -/
def credWorldUidZero : CredWorld :=
  { uidOut := .ok "0\n", gidOut := .ok "5\n",
    groupsOut := .ok "a : b", getentOut := fun _ => .ok "g:x:9:" }

/-- Concrete identity-query oracle where every query succeeds with
strictly positive ids. -/
def credWorldHealthy : CredWorld :=
  { uidOut := .ok "1001\n", gidOut := .ok "1001\n",
    groupsOut := .ok "a : b", getentOut := fun _ => .ok "g:x:9:" }

/-- Claim C1 witness: with uid resolving to 0 and gid to 5 (all queries
succeeding), resolution yields the invalid-credential error; at uid 1001
and gid 1001 the credential is returned. -/
theorem credentials_returned_iff_positive_witness :
    (getUserCredentials credWorldUidZero).1 = .error .invalidCred ∧
    (getUserCredentials credWorldHealthy).1 = .ok (1001, 1001, [9]) := by
  constructor
  · exact (credentials_returned_iff_positive credWorldUidZero "0\n" "5\n" "a : b" 0 5 [9]
      [.getentQuery "b"] rfl rfl rfl rfl rfl rfl).2 (Or.inl (by decide))
  · exact (credentials_returned_iff_positive credWorldHealthy "1001\n" "1001\n" "a : b"
      1001 1001 [9] [.getentQuery "b"] rfl rfl rfl rfl rfl rfl).1 ⟨by decide, by decide⟩

/-- Claim C2: whatever `StartPty` spawns is the shell `sh`; with an
empty-or-whitespace `shellCmd` it carries no arguments, and with a
non-empty `shellCmd` its arguments are the run-a-command flag list
followed by the whole `shellCmd` text as one single trailing argument,
never split. -/
theorem startPty_spawns_single_argument
    (w : StartWorld) (prev : PtyFileState) (runAs : Bool) (shellCmd : String)
    (si : SpawnInfo) (h : (StartPty w prev runAs shellCmd).spawned = some si) :
    si.prog = "sh" ∧
    (goTrimSpace shellCmd = "" → si.args = []) ∧
    (goTrimSpace shellCmd ≠ "" → si.args = shellPluginCommandArgs ++ [shellCmd]) := by
  have hsi : si.prog = (buildCommand shellCmd).1 ∧ si.args = (buildCommand shellCmd).2 := by
    unfold StartPty at h
    rcases runAs with _ | _ <;> simp only [Bool.false_eq_true, if_false, if_true] at h
    · rcases hw : w.ptyStartOk with _ | _ <;>
        simp only [hw, Bool.false_eq_true, if_false, if_true, Option.some.injEq] at h <;>
        exact ⟨congrArg SpawnInfo.prog h.symm, congrArg SpawnInfo.args h.symm⟩
    · rcases hc : (getUserCredentials w.credWorld).1 with e | ⟨uid, gid, groups⟩ <;>
        simp only [hc] at h
      · simp at h
      · rcases hw : w.ptyStartOk with _ | _ <;>
          simp only [hw, Bool.false_eq_true, if_false, if_true, Option.some.injEq] at h <;>
          exact ⟨congrArg SpawnInfo.prog h.symm, congrArg SpawnInfo.args h.symm⟩
  refine ⟨?_, ?_, ?_⟩
  · rw [hsi.1]
    unfold buildCommand
    by_cases ht : goTrimSpace shellCmd = "" <;> simp [ht]
  · intro ht
    rw [hsi.2, buildCommand, if_pos ht]
  · intro ht
    rw [hsi.2, buildCommand, if_neg ht]

/-- Concrete `StartPty` oracle: empty parent environment, unset locale,
healthy identity queries, and a pty that starts successfully. -/
def startWorldHealthy : StartWorld :=
  { environ := ["PATH=/usr/bin"], langValue := "",
    credWorld := credWorldHealthy, ptyStartOk := true }

/-- Claim C2 witness: on a healthy host, `StartPty` with command text
`"ls -la"` spawns `sh` with the flag list and the whole text as one
argument. -/
theorem startPty_spawns_single_argument_witness :
    (StartPty startWorldHealthy .nilFile false "ls -la").spawned.map
      (fun si => (si.prog, si.args)) = some ("sh", ["-c", "ls -la"]) := by
  have h : (StartPty startWorldHealthy .nilFile false "ls -la").spawned =
      some { prog := "sh", args := ["-c", "ls -la"],
             env := childEnv startWorldHealthy.environ startWorldHealthy.langValue,
             cred := none } := rfl
  obtain ⟨h1, _, h3⟩ := startPty_spawns_single_argument startWorldHealthy .nilFile
    false "ls -la" _ h
  rw [h, Option.map_some', h1, h3 (by decide)]
  rfl

/-- Claim C5: every spawn attempted by `StartPty` carries `childEnv`,
which is the caller's environment (preserved as a prefix) extended with
exactly the fixed terminal-type and home-directory overrides, plus the
UTF-8 locale default appended if and only if the caller's `LANG` value is
empty; with a non-empty `LANG` nothing else — in particular no second
locale definition — is appended. -/
theorem startPty_environment
    (w : StartWorld) (prev : PtyFileState) (runAs : Bool) (shellCmd : String)
    (si : SpawnInfo) (h : (StartPty w prev runAs shellCmd).spawned = some si) :
    si.env = childEnv w.environ w.langValue ∧
    (childEnv w.environ w.langValue).take w.environ.length = w.environ ∧
    ((childEnv w.environ w.langValue).drop w.environ.length =
      if w.langValue = "" then [termEnvVariable, homeEnvVariable, langEnvVariable]
      else [termEnvVariable, homeEnvVariable]) := by
  refine ⟨?_, ?_, ?_⟩
  · unfold StartPty at h
    rcases runAs with _ | _ <;> simp only [Bool.false_eq_true, if_false, if_true] at h
    · rcases hw : w.ptyStartOk with _ | _ <;>
        simp only [hw, Bool.false_eq_true, if_false, if_true, Option.some.injEq] at h <;>
        exact congrArg SpawnInfo.env h.symm
    · rcases hc : (getUserCredentials w.credWorld).1 with e | ⟨uid, gid, groups⟩ <;>
        simp only [hc] at h
      · simp at h
      · rcases hw : w.ptyStartOk with _ | _ <;>
          simp only [hw, Bool.false_eq_true, if_false, if_true, Option.some.injEq] at h <;>
          exact congrArg SpawnInfo.env h.symm
  · unfold childEnv
    by_cases hl : w.langValue = "" <;>
      simp [hl, List.append_assoc, List.take_left]
  · unfold childEnv
    by_cases hl : w.langValue = "" <;>
      simp [hl, List.append_assoc, List.drop_left]

/-- Claim C5 witness: with an unset locale the spawned environment is the
parent environment plus the TERM and HOME overrides and the locale
default; the suffix actually appended past the parent environment is
exactly those three entries. -/
theorem startPty_environment_witness :
    (StartPty startWorldHealthy .nilFile false "").spawned.map SpawnInfo.env =
      some ["PATH=/usr/bin", "TERM=xterm-256color", "HOME=/home/ssm-user",
            "LANG=C.UTF-8"] := by
  have h : (StartPty startWorldHealthy .nilFile false "").spawned =
      some { prog := "sh", args := [],
             env := childEnv startWorldHealthy.environ startWorldHealthy.langValue,
             cred := none } := rfl
  obtain ⟨h1, -, -⟩ := startPty_environment startWorldHealthy .nilFile false "" _ h
  rw [h, Option.map_some', h1]
  rfl

/-- Claim C3: when `StartPty` runs as the ssm user and credential
resolution fails, the resolver's error is returned unchanged with nil
stdin and stdout handles and no spawn is ever attempted (so no PTY is
allocated and no subprocess started); when resolution succeeds, the spawn
carries exactly the resolved uid, gid and supplementary group list in its
credential descriptor, with `NoSetGroups` false so the group set is fully
replaced. -/
theorem startPty_runAs_credential_handling
    (w : StartWorld) (prev : PtyFileState) (shellCmd : String) :
    (∀ e, (getUserCredentials w.credWorld).1 = .error e →
      (StartPty w prev true shellCmd).err = some e ∧
      (StartPty w prev true shellCmd).stdin = none ∧
      (StartPty w prev true shellCmd).stdout = none ∧
      (StartPty w prev true shellCmd).spawned = none ∧
      (StartPty w prev true shellCmd).state = prev) ∧
    (∀ uid gid groups, (getUserCredentials w.credWorld).1 = .ok (uid, gid, groups) →
      (StartPty w prev true shellCmd).spawned.map SpawnInfo.cred =
        some (some { uid := uid, gid := gid, groups := groups, noSetGroups := false })) := by
  constructor
  · intro e he
    unfold StartPty
    simp [he]
  · intro uid gid groups hc
    unfold StartPty
    simp only [if_true, hc]
    rcases hw : w.ptyStartOk with _ | _ <;>
      simp [hw]

/-- Concrete `StartPty` oracle whose group-membership query fails, as when
the restricted user does not exist on the host. -/
def startWorldNoUser : StartWorld :=
  { environ := ["PATH=/usr/bin"], langValue := "",
    credWorld :=
      { uidOut := .error "id: no such user", gidOut := .ok "5\n",
        groupsOut := .ok "a : b", getentOut := fun _ => .ok "g:x:9:" },
    ptyStartOk := true }

/-- Claim C3 witness: with the uid query failing, `StartPty(true, "")`
returns that query error and never spawns; with healthy queries the
spawned credential descriptor is uid 1001, gid 1001, groups [9],
`NoSetGroups` false. -/
theorem startPty_runAs_credential_handling_witness :
    ((StartPty startWorldNoUser .nilFile true "").err =
        some (.queryError "id: no such user") ∧
      (StartPty startWorldNoUser .nilFile true "").spawned = none) ∧
    (StartPty { startWorldHealthy with credWorld := credWorldHealthy }
        .nilFile true "").spawned.map SpawnInfo.cred =
      some (some { uid := 1001, gid := 1001, groups := [9], noSetGroups := false }) := by
  constructor
  · obtain ⟨h1, -, -, h4, -⟩ :=
      (startPty_runAs_credential_handling startWorldNoUser .nilFile "").1
        (.queryError "id: no such user") rfl
    exact ⟨h1, h4⟩
  · exact (startPty_runAs_credential_handling
      { startWorldHealthy with credWorld := credWorldHealthy } .nilFile "").2
      1001 1001 [9] rfl

/-- When every candidate group name resolves (its `getent` query succeeds
and the record parses), the loop queries exactly the given names in
order. -/
theorem resolveGroups_queries_each (w : CredWorld) (names : List String)
    (h : ∀ n ∈ names, ∃ out g, w.getentOut n = .ok out ∧ parseGroupId out = .ok g) :
    (resolveGroups w names).2 = names.map QEvent.getentQuery ∧
    ∃ gs, (resolveGroups w names).1 = .ok gs := by
  induction names with
  | nil => exact ⟨rfl, [], rfl⟩
  | cons name rest ih =>
    obtain ⟨out, g, hout, hparse⟩ := h name (List.mem_cons_self name rest)
    obtain ⟨ih2, gs, ih1⟩ := ih (fun n hn => h n (List.mem_cons_of_mem name hn))
    simp only [resolveGroups, hout, hparse, ih1, ih2, List.map_cons]
    exact ⟨trivial, g :: gs, rfl⟩

/-- Claim C4: with the uid and gid steps succeeding, the group-membership
output is split into space-separated tokens and the group-database
queries issued are exactly one per token from the third onward, in order —
no later token is skipped and neither of the first two tokens is ever
queried — provided each such candidate's query and parse succeed. -/
theorem group_tokens_after_first_two_queried
    (w : CredWorld) (us gs grs : String) (uid gid : Int)
    (hu : w.uidOut = .ok us) (hup : goAtoi (goTrimSpace us) = .ok uid)
    (hg : w.gidOut = .ok gs) (hgp : goAtoi (goTrimSpace gs) = .ok gid)
    (hgr : w.groupsOut = .ok grs)
    (hok : ∀ n ∈ (goSplit grs ' ').drop 2,
      ∃ out g, w.getentOut n = .ok out ∧ parseGroupId out = .ok g) :
    (getUserCredentials w).2 =
      [QEvent.uidQuery, .gidQuery, .groupsQuery] ++
        ((goSplit grs ' ').drop 2).map QEvent.getentQuery := by
  obtain ⟨hq, gids, hr⟩ := resolveGroups_queries_each w ((goSplit grs ' ').drop 2) hok
  simp only [getUserCredentials, hu, hup, hg, hgp, hgr, hr, hq]
  by_cases hpos : (uid > 0 && gid > 0) = true <;> simp [hpos]

/-- Claim C4 witness: for membership output `"u : g1 g2\n"` the queried
group names are exactly the third and fourth tokens, `"g1"` and
`"g2\n"`; the first two tokens `"u"` and `":"` are not queried. -/
theorem group_tokens_after_first_two_queried_witness :
    (getUserCredentials
      { uidOut := .ok "7", gidOut := .ok "8",
        groupsOut := .ok "u : g1 g2\n", getentOut := fun _ => .ok "g:x:9:" }).2 =
      [.uidQuery, .gidQuery, .groupsQuery,
       .getentQuery "g1", QEvent.getentQuery "g2\n"] := by
  have h := group_tokens_after_first_two_queried
    { uidOut := .ok "7", gidOut := .ok "8",
      groupsOut := .ok "u : g1 g2\n", getentOut := fun _ => .ok "g:x:9:" }
    "7" "8" "u : g1 g2\n" 7 8 rfl rfl rfl rfl rfl
    (fun n _ => ⟨"g:x:9:", 9, rfl, rfl⟩)
  rw [h]
  rfl

/-- Claim C6: when the disposable session fails to start,
`generateLogData` returns the start error at once and performs no
scripted step; when it starts (writes, whose results the source
discards, cannot fail the sequence), it performs the whole scripted
sequence in order — buffer-enlarge command, record command, logger
command, three exit commands, close of the PTY input, with the source's
fixed sleeps — and returns no error. -/
theorem generateLogData_sequence
    (p : ShellPlugin) (w : StartWorld) (prev : PtyFileState) :
    (w.ptyStartOk = false →
      (generateLogData p w prev).err = some .ptyStartError ∧
      (generateLogData p w prev).script = []) ∧
    (w.ptyStartOk = true →
      (generateLogData p w prev).err = none ∧
      (generateLogData p w prev).script =
        [.sleep 5, .write screenBufferSizeCmdInput,
         .sleep 5, .write (recordCmdInput p),
         .sleep 5, .write (loggerCmdInput p),
         .sleep 60, .write exitCmdInput,
         .sleep 30, .write exitCmdInput,
         .sleep 5, .write exitCmdInput,
         .sleep 5, REvent.closeStdin,
         .sleep 15]) := by
  constructor
  · intro hw
    have hstart : (StartPty w prev false "").err = some .ptyStartError := by
      unfold StartPty
      simp [hw]
    unfold generateLogData
    simp [hstart]
  · intro hw
    have hstart : (StartPty w prev false "").err = none := by
      unfold StartPty
      simp [hw]
    unfold generateLogData
    simp [hstart]

/-- Claim C6 witness: on a healthy host the recording run returns no
error and its scripted steps are the nine-step sequence; with a failing
pty start it returns the start error having performed no scripted step. -/
theorem generateLogData_sequence_witness :
    ((generateLogData { logFilePath := "/var/log/s.log", ipcFilePath := "/tmp/ipc" }
        startWorldHealthy .nilFile).err = none ∧
      (generateLogData { logFilePath := "/var/log/s.log", ipcFilePath := "/tmp/ipc" }
        startWorldHealthy .nilFile).script =
        [.sleep 5, .write "screen -h 100000\n",
         .sleep 5, .write "script /var/log/s.log\n",
         .sleep 5, .write "ssm-session-logger /tmp/ipc false\n",
         .sleep 60, .write "exit\n",
         .sleep 30, .write "exit\n",
         .sleep 5, .write "exit\n",
         .sleep 5, REvent.closeStdin,
         .sleep 15]) ∧
    (generateLogData { logFilePath := "/var/log/s.log", ipcFilePath := "/tmp/ipc" }
        { startWorldHealthy with ptyStartOk := false } .nilFile).err =
      some .ptyStartError := by
  refine ⟨⟨?_, ?_⟩, ?_⟩
  · exact ((generateLogData_sequence
      { logFilePath := "/var/log/s.log", ipcFilePath := "/tmp/ipc" }
      startWorldHealthy .nilFile).2 rfl).1
  · rw [((generateLogData_sequence
      { logFilePath := "/var/log/s.log", ipcFilePath := "/tmp/ipc" }
      startWorldHealthy .nilFile).2 rfl).2]
    rfl
  · exact ((generateLogData_sequence
      { logFilePath := "/var/log/s.log", ipcFilePath := "/tmp/ipc" }
      { startWorldHealthy with ptyStartOk := false } .nilFile).1 rfl).1

end ShellUnix
